import Mathlib

/-!
Shallow embedding of the resumable paginated multi-source search engine
(four backend connectors: IEEE `api_1_ieee.py`, Springer `api_2_springer.py`,
Scopus `api_3_scopus.py`, PubMed `api_4_pubmed.py`).

The embedding translates, function by function, the state manipulated by
each connector: the shared request counter and request log, the daily-budget
pause, the pagination loop, the checkpoint store, the per-cell accounting of
`total_saved_records`, the three-level index iteration of `search`, and the
response parsers.  Wall-clock effects (`time.sleep`) are modelled as counted
pause events; network responses are explicit inputs.
-/

/-- Shared per-connector mutable state touched by one network call:
`request_counter`, the request log (kept as a list of appended lines) and the
number of 24-hour budget pauses that have fired (`time.sleep(24*60*60)`
events). -/
structure ConnState where
  request_counter : Nat
  request_log : List String
  pauses : Nat
deriving DecidableEq, Repr

/-- Fresh connector state: `request_counter = 0`, empty `request_log`. -/
def ConnState.init : ConnState := ⟨0, [], 0⟩

namespace Scopus

/-- `ScopusAPI.max_requests_per_day` (`api_3_scopus.py` line 11). -/
def max_requests_per_day : Nat := 500

/-- `ScopusAPI.get_data_from_url` (`api_3_scopus.py` lines 53-66), with the
daily budget as an explicit parameter (the instance field) and the HTTP
response status as an explicit input.  If the counter has reached the budget,
the 24-hour pause fires and the counter resets to 0; the log line
`"Scopus API request #<n>: <url>"` is appended; on a non-200 status the
function returns `none` WITHOUT incrementing the counter; on a 200 status the
counter is incremented and the body is returned. -/
def get_data_from_url (budget : Nat) (st : ConnState) (url : String)
    (status : Nat) : Option Unit × ConnState :=
  let st1 := if st.request_counter ≥ budget then
    { st with pauses := st.pauses + 1, request_counter := 0 } else st
  let line := "Scopus API request #" ++ toString (st1.request_counter + 1)
    ++ ": " ++ url
  let st2 := { st1 with request_log := st1.request_log ++ [line] }
  if status ≠ 200 then (none, st2)
  else (some (), { st2 with request_counter := st2.request_counter + 1 })

/-- A run of successive `get_data_from_url` calls over a list of
(url, status) pairs. -/
def run (budget : Nat) (st : ConnState) : List (String × Nat) → ConnState
  | [] => st
  | (url, status) :: rest =>
      run budget (get_data_from_url budget st url status).2 rest

end Scopus

namespace Springer

/-- `SpringerAPI.max_requests_per_day` (`api_2_springer.py` line 11). -/
def max_requests_per_day : Nat := 500

/-- `SpringerAPI.get_data_from_url` (`api_2_springer.py` lines 52-62):
budget check with 24-hour pause and counter reset, then the log line
`"Springer API request #<n>: <url>"` is appended, the request is made and
the counter is incremented (no status check at all in this backend). -/
def get_data_from_url (budget : Nat) (st : ConnState) (url : String) :
    ConnState :=
  let st1 := if st.request_counter ≥ budget then
    { st with pauses := st.pauses + 1, request_counter := 0 } else st
  let line := "Springer API request #" ++ toString (st1.request_counter + 1)
    ++ ": " ++ url
  { st1 with request_log := st1.request_log ++ [line],
             request_counter := st1.request_counter + 1 }

end Springer

namespace PubMed

/-- `PubMedAPI.max_requests_per_day` (`api_4_pubmed.py` line 13). -/
def max_requests_per_day : Nat := 500

/-- `PubMedAPI.get_data_from_url` (`api_4_pubmed.py` lines 50-59): budget
check with 24-hour pause and counter reset, log line
`"PubMed API request #<n>: <url>"`, request, counter increment. -/
def get_data_from_url (budget : Nat) (st : ConnState) (url : String) :
    ConnState :=
  let st1 := if st.request_counter ≥ budget then
    { st with pauses := st.pauses + 1, request_counter := 0 } else st
  let line := "PubMed API request #" ++ toString (st1.request_counter + 1)
    ++ ": " ++ url
  { st1 with request_log := st1.request_log ++ [line],
             request_counter := st1.request_counter + 1 }

end PubMed

namespace IEEE

/-- `IEEEAPI.call_api` (`api_1_ieee.py` lines 52-63): NO budget check of any
kind; the log line `"IEEE API request #<n>: <url>"` is appended and the
counter incremented once per call. -/
def call_api (st : ConnState) (url : String) : ConnState :=
  let line := "IEEE API request #" ++ toString (st.request_counter + 1)
    ++ ": " ++ url
  { st with request_log := st.request_log ++ [line],
            request_counter := st.request_counter + 1 }

/-- The page loop of `IEEEAPI.search` (`api_1_ieee.py` lines 84-116) for one
(bias name, keyword) cell, counting page requests: the offset `start_record`
starts at 1 and each further page adds the page size 25; after each request
the loop breaks when `start_record + 24 >= total_records`, where
`total_records` is the count reported by the backend for this cell. -/
def page_loop (total_records : Nat) (start_record : Nat) : Nat :=
  if start_record + 24 ≥ total_records then 1
  else 1 + page_loop total_records (start_record + 25)
termination_by total_records - start_record
decreasing_by omega

/-- Number of page requests `IEEEAPI.search` issues for one cell:
`start_record` is initialised to 1 (`api_1_ieee.py` line 78). -/
def requests_for_cell (total_records : Nat) : Nat :=
  page_loop total_records 1

end IEEE

/-! ## Index iteration skeleton of `search`

The three-level iteration of each connector's `search` over
(primary-term index i, bias-name index k, keyword index j).  A run is
abstracted to the list of (i, k, j) cells whose body is executed, starting
from the (item/query)_index, keyword_index and name_index restored from a
checkpoint.  A primary term is abstracted to its number of bias names
(`len(term.split(" or "))`, always ≥ 1 in Python). -/

/-- The cells visited by one keyword loop `for j in range(j0, K)` at
primary-term index `i` and bias-name index `k`. -/
def keywordLoopCells (i k j0 K : Nat) : List (Nat × Nat × Nat) :=
  (List.range' j0 (K - j0)).map fun j => (i, k, j)

namespace Springer

/-- One iteration of the outer loop of `SpringerAPI.search`
(`api_2_springer.py` lines 79-190) at primary-term index `i` with `n` bias
names, entered with `self.keyword_index = j0` and `self.name_index = k0`.
Returns the visited cells and the values of
(`self.keyword_index`, `self.name_index`) after the iteration.  In the
single-name branch NOTHING resets `self.keyword_index`; in the multi-name
branch `self.keyword_index = 0` runs after each name's keyword loop
(line 188); `self.name_index = 0` runs at line 190 in both branches. -/
def term_iter (K i n j0 k0 : Nat) : List (Nat × Nat × Nat) × Nat × Nat :=
  if n == 1 then
    (keywordLoopCells i 0 j0 K, j0, 0)
  else
    ((List.range' k0 (n - k0)).flatMap fun k =>
        keywordLoopCells i k (if k == k0 then j0 else 0) K,
      if k0 < n then 0 else j0, 0)

/-- The outer loop `for i in range(self.item_index, len(initial_terms))` of
`SpringerAPI.search`, over the remaining primary terms (given as bias-name
counts), threading (`keyword_index`, `name_index`) between iterations. -/
def search_loop (K : Nat) : List Nat → Nat → Nat → Nat → List (Nat × Nat × Nat)
  | [], _, _, _ => []
  | n :: rest, i, j0, k0 =>
      let r := term_iter K i n j0 k0
      r.1 ++ search_loop K rest (i + 1) r.2.1 r.2.2

/-- Cells visited by a full `SpringerAPI.search` run over primary terms with
bias-name counts `nameCounts` and `K` keywords, resumed from checkpoint
indices (`item_index = i0`, `keyword_index = j0`, `name_index = k0`). -/
def search_visited (nameCounts : List Nat) (K i0 j0 k0 : Nat) :
    List (Nat × Nat × Nat) :=
  search_loop K (nameCounts.drop i0) i0 j0 k0

end Springer

namespace Scopus

/-- One iteration of the outer loop of `ScopusAPI.search`
(`api_3_scopus.py` lines 86-196): identical index discipline to Springer —
no `keyword_index` reset in the single-name branch, `self.keyword_index = 0`
after each name's keyword loop in the multi-name branch (line 194),
`self.name_index = 0` at line 196. -/
def term_iter (K i n j0 k0 : Nat) : List (Nat × Nat × Nat) × Nat × Nat :=
  if n == 1 then
    (keywordLoopCells i 0 j0 K, j0, 0)
  else
    ((List.range' k0 (n - k0)).flatMap fun k =>
        keywordLoopCells i k (if k == k0 then j0 else 0) K,
      if k0 < n then 0 else j0, 0)

/-- Outer loop of `ScopusAPI.search` over the remaining primary terms. -/
def search_loop (K : Nat) : List Nat → Nat → Nat → Nat → List (Nat × Nat × Nat)
  | [], _, _, _ => []
  | n :: rest, i, j0, k0 =>
      let r := term_iter K i n j0 k0
      r.1 ++ search_loop K rest (i + 1) r.2.1 r.2.2

/-- Cells visited by a full `ScopusAPI.search` run resumed from checkpoint
indices (`item_index = i0`, `keyword_index = j0`, `name_index = k0`). -/
def search_visited (nameCounts : List Nat) (K i0 j0 k0 : Nat) :
    List (Nat × Nat × Nat) :=
  search_loop K (nameCounts.drop i0) i0 j0 k0

end Scopus

namespace IEEE

/-- One iteration of the outer loop of `IEEEAPI.search`
(`api_1_ieee.py` lines 66-207): the single-name branch ends with
`self.keyword_index = 0` (line 132), the multi-name branch resets
`keyword_index` after each name (line 203) and `name_index` after the name
loop (line 204), and lines 206-207 reset BOTH indices to 0 at the end of
every outer iteration. -/
def term_iter (K i n j0 k0 : Nat) : List (Nat × Nat × Nat) × Nat × Nat :=
  if n == 1 then
    (keywordLoopCells i 0 j0 K, 0, 0)
  else
    ((List.range' k0 (n - k0)).flatMap fun k =>
        keywordLoopCells i k (if k == k0 then j0 else 0) K,
      0, 0)

/-- Outer loop of `IEEEAPI.search` over the remaining primary terms. -/
def search_loop (K : Nat) : List Nat → Nat → Nat → Nat → List (Nat × Nat × Nat)
  | [], _, _, _ => []
  | n :: rest, i, j0, k0 =>
      let r := term_iter K i n j0 k0
      r.1 ++ search_loop K rest (i + 1) r.2.1 r.2.2

/-- Cells visited by a full `IEEEAPI.search` run resumed from checkpoint
indices (`query_index = i0`, `keyword_index = j0`, `name_index = k0`). -/
def search_visited (nameCounts : List Nat) (K i0 j0 k0 : Nat) :
    List (Nat × Nat × Nat) :=
  search_loop K (nameCounts.drop i0) i0 j0 k0

end IEEE

namespace PubMed

/-- One iteration of the outer loop of `PubMedAPI.search`
(`api_4_pubmed.py` lines 140-231): like IEEE, the single-name branch ends
with `self.keyword_index = 0` (line 181), the multi-name branch resets both
inner indices (lines 227-228), and lines 230-231 reset both at the end of
every outer iteration. -/
def term_iter (K i n j0 k0 : Nat) : List (Nat × Nat × Nat) × Nat × Nat :=
  if n == 1 then
    (keywordLoopCells i 0 j0 K, 0, 0)
  else
    ((List.range' k0 (n - k0)).flatMap fun k =>
        keywordLoopCells i k (if k == k0 then j0 else 0) K,
      0, 0)

/-- Outer loop of `PubMedAPI.search` over the remaining primary terms. -/
def search_loop (K : Nat) : List Nat → Nat → Nat → Nat → List (Nat × Nat × Nat)
  | [], _, _, _ => []
  | n :: rest, i, j0, k0 =>
      let r := term_iter K i n j0 k0
      r.1 ++ search_loop K rest (i + 1) r.2.1 r.2.2

/-- Cells visited by a full `PubMedAPI.search` run resumed from checkpoint
indices (`item_index = i0`, `keyword_index = j0`, `name_index = k0`). -/
def search_visited (nameCounts : List Nat) (K i0 j0 k0 : Nat) :
    List (Nat × Nat × Nat) :=
  search_loop K (nameCounts.drop i0) i0 j0 k0

end PubMed

/-! ## Per-cell accounting of `total_saved_records`

Each connector completes a (bias name, keyword) cell with the same three
statements (e.g. `api_1_ieee.py` lines 118-120, `api_2_springer.py` lines
117-119): the cell's record list is written into `all_results` under its
keyword, the per-bias total is bumped, and `self.total_saved_records` is
bumped by `len(records_for_keyword)` — all in one step, immediately followed
by `save_checkpoint`.  The accounting state keeps the running
`total_saved_records` together with the journal of every ResultCell ever
merged (keyword, records). -/

/-- Running accounting state of one backend: `total_saved_records` plus the
ordered journal of every (keyword, ResultCell) merged into `all_results`
during the run.  `α` is the record type. -/
structure Accounting (α : Type) where
  total_saved_records : Nat
  merged_cells : List (String × List α)
deriving DecidableEq, Repr

/-- Completion of one cell (`api_1_ieee.py` lines 118-120 /
`api_2_springer.py` lines 117-119): merge the cell and add its length to
`total_saved_records` in the same step. -/
def complete_cell {α : Type} (st : Accounting α) (keyword : String)
    (records_for_keyword : List α) : Accounting α :=
  { total_saved_records := st.total_saved_records + records_for_keyword.length,
    merged_cells := st.merged_cells ++ [(keyword, records_for_keyword)] }

/-- A run of cell completions in order. -/
def run_cells {α : Type} (st : Accounting α) (cells : List (String × List α)) :
    Accounting α :=
  cells.foldl (fun s c => complete_cell s c.1 c.2) st

/-- Sum of the record counts of a journal of merged cells. -/
def cellSum {α : Type} (cells : List (String × List α)) : Nat :=
  (cells.map fun c => c.2.length).sum

/-! ## Checkpoint store

`save_checkpoint` (`api_1_ieee.py` lines 41-46, `api_2_springer.py` lines
46-50) overwrites the `request_counter` and `request_log` fields of the
checkpoint dict with the instance's current values, then serialises the dict
to the checkpoint file; `load_checkpoint` deserialises the file when it
exists.  The durable file is modelled as `Option CheckpointData` (the parsed
contents); JSON round-tripping of these string/int/list payloads is
faithful. -/

/-- A normalized record: the seven fields every IEEE/Springer record dict
carries (title, abstract, authors, doi, isbn, issn, publication year). -/
structure NormRecord where
  title : String
  abstract : String
  authors : String
  doi : String
  isbn : String
  issn : String
  pubYear : String
deriving DecidableEq, Repr

/-- A `BiasResult` (spec §3): either the flat shape
`{"Total records": n, "Records": {keyword: cell}}` for a single-name primary
term, or the nested shape keyed by bias name for a multi-name term. -/
inductive BiasResult where
  | flat (total : Nat) (records : List (String × List NormRecord))
  | nested (total : Nat)
      (names : List (String × Nat × List (String × List NormRecord)))
deriving DecidableEq, Repr

/-- The checkpoint payload (`checkpoint_data` dict in every connector):
`all_results`, `total_saved_records`, the three indices, `request_counter`
and `request_log`. -/
structure CheckpointData where
  all_results : List (String × BiasResult)
  total_saved_records : Nat
  item_index : Nat
  keyword_index : Nat
  name_index : Nat
  request_counter : Nat
  request_log : String
deriving DecidableEq, Repr

/-- `save_checkpoint(self, data)`: `data['request_counter']` and
`data['request_log']` are overwritten with the instance's current values
(`inst_counter`, `inst_log`), then the dict is written to the checkpoint
file; the result is the file contents after the write. -/
def save_checkpoint (inst_counter : Nat) (inst_log : String)
    (data : CheckpointData) : Option CheckpointData :=
  some { data with request_counter := inst_counter, request_log := inst_log }

/-- `load_checkpoint(self)`: returns the parsed checkpoint file when it
exists, `None` otherwise. -/
def load_checkpoint (file : Option CheckpointData) : Option CheckpointData :=
  file

/-! ## Checkpoint-file write/remove events -/

/-- Durable checkpoint-file state: whether the file currently exists, plus
event counters for writes (`save_checkpoint`) and removals
(`os.remove(self.checkpoint_file)`). -/
structure CkptFile where
  present : Bool
  writes : Nat
  removes : Nat
deriving DecidableEq, Repr

/-- One `save_checkpoint` write: the file exists afterwards. -/
def CkptFile.write (fs : CkptFile) : CkptFile :=
  ⟨true, fs.writes + 1, fs.removes⟩

/-- `if os.path.exists(self.checkpoint_file): os.remove(self.checkpoint_file)`
run once after the outer loop. -/
def CkptFile.removeIfExists (fs : CkptFile) : CkptFile :=
  if fs.present then ⟨false, fs.writes, fs.removes + 1⟩ else fs

namespace PubMed

/-- The checkpoint effect of one keyword-loop iteration of `PubMedAPI.search`
(`api_4_pubmed.py` lines 149-180): phase 1 returns the cell's `pmids`; when
`pmids` is empty, `continue` (line 156) skips the merge AND the
`save_checkpoint` call; otherwise the cell completes and `save_checkpoint`
(line 180) writes the file once. -/
def cell_ckpt_step (fs : CkptFile) (pmids : List Nat) : CkptFile :=
  if pmids.isEmpty then fs else fs.write

/-- Checkpoint-file effect of a full `PubMedAPI.search` run whose cells
yield the given pmid lists: one write attempt per cell, then the
remove-if-exists at lines 245-246 after the outer loop. -/
def search_ckpt (fs : CkptFile) (cells : List (List Nat)) : CkptFile :=
  (cells.foldl cell_ckpt_step fs).removeIfExists

end PubMed

namespace IEEE

/-- The checkpoint effect of one keyword-loop iteration of `IEEEAPI.search`
(`api_1_ieee.py` lines 118-131): `save_checkpoint` runs unconditionally
after every completed cell, also when the cell holds zero records. -/
def cell_ckpt_step (fs : CkptFile) (_records : List Nat) : CkptFile :=
  fs.write

/-- Checkpoint-file effect of a full `IEEEAPI.search` run: one write per
completed cell, then the remove-if-exists at lines 221-222 after the outer
loop. -/
def search_ckpt (fs : CkptFile) (cells : List (List Nat)) : CkptFile :=
  (cells.foldl cell_ckpt_step fs).removeIfExists

end IEEE

/-! ## Response parsers

Python truthiness on the values that occur in the parsed dicts: `None` and
the empty string are falsy, every other string (including `"null"` and
`"No DOI"`) is truthy. -/

/-- Python truthiness of a string value. -/
def pyTruthyStr (s : String) : Bool := !s.isEmpty

/-- Python truthiness of a string-or-None value. -/
def pyTruthyOpt : Option String → Bool
  | none => false
  | some s => !s.isEmpty

namespace IEEE

/-- One article dict of an IEEE response, with the keys
`IEEEAPI.search` reads (`api_1_ieee.py` lines 91-98); `none` means the key
is absent.  `authors` is the list of `full_name` values found under
`article["authors"]["authors"]`. -/
structure Article where
  title : Option String
  abstract : Option String
  authors : List (Option String)
  doi : Option String
  publication_year : Option String
  isbn : Option String
  issn : Option String
deriving DecidableEq, Repr

/-- The record dict appended for one article (`api_1_ieee.py` lines
92-108): every field defaulted with `.get(key, "null")`, except `doi`
which defaults to `"No DOI"`; no filtering of any kind. -/
def parse_article (a : Article) : NormRecord :=
  { title := a.title.getD "null",
    abstract := a.abstract.getD "null",
    authors := String.intercalate ", " (a.authors.map (fun x => x.getD "null")),
    doi := a.doi.getD "No DOI",
    isbn := a.isbn.getD "null",
    issn := a.issn.getD "null",
    pubYear := a.publication_year.getD "null" }

/-- The article loop of `IEEEAPI.search` appends one record per article,
unconditionally. -/
def parse_articles (articles : List Article) : List NormRecord :=
  articles.map parse_article

end IEEE

/-- One record dict of a Springer response (`data["records"]` entry), with
the keys `SpringerAPI.extract_data` reads; `none` means the key is absent.
`creators` is the list of `creator` values of `record["creators"]`. -/
structure SpringerRecordIn where
  title : Option String
  abstract : Option String
  creators : List (Option String)
  doi : Option String
  isbn : Option String
  issn : Option String
  publicationDate : Option String
deriving DecidableEq, Repr

/-- The normalized record `SpringerAPI.extract_data` builds: note the
seventh key is `"publicationDate"`, not `"publication year"`. -/
structure SpringerRecordOut where
  title : String
  abstract : String
  authors : String
  doi : String
  isbn : String
  issn : String
  publicationDate : String
deriving DecidableEq, Repr

namespace Springer

/-- The per-record dict of `SpringerAPI.extract_data`
(`api_2_springer.py` lines 66-74): every field defaulted, `doi` to
`"No DOI"`, the others to `"null"`. -/
def extract_one (r : SpringerRecordIn) : SpringerRecordOut :=
  { title := r.title.getD "null",
    abstract := r.abstract.getD "null",
    authors := String.intercalate ", " (r.creators.map (fun x => x.getD "null")),
    doi := r.doi.getD "No DOI",
    isbn := r.isbn.getD "null",
    issn := r.issn.getD "null",
    publicationDate := r.publicationDate.getD "null" }

/-- `SpringerAPI.extract_data` (`api_2_springer.py` lines 64-76): a list
comprehension over `data.get("records", [])` — one output record per input
record, no filtering. -/
def extract_data (records : List SpringerRecordIn) : List SpringerRecordOut :=
  records.map extract_one

end Springer

/-- One entry of a Scopus response, with the keys
`ScopusAPI.extract_titles_and_abstracts` reads.  For `dc:title`,
`dc:description` and `prism:doi` the code uses `entry.get(key)` whose
default is `None`, so a JSON `null` value and an absent key coincide
(`none`).  For `prism:isbn` and `prism:issn` the code uses
`entry.get(key, "null")`, so an absent key (outer `none`) yields `"null"`
while a present key yields its value, which may itself be JSON `null`
(inner `none`).  `prism:coverDate` defaults to `""` when absent. -/
structure ScopusEntry where
  dcTitle : Option String
  dcDescription : Option String
  authors : List (Option String)
  prismDoi : Option String
  prismIsbn : Option (Option String)
  prismIssn : Option (Option String)
  prismCoverDate : Option String
deriving DecidableEq, Repr

/-- The `article_data` dict of `ScopusAPI.extract_titles_and_abstracts`:
`title`, `abstract` and `doi` keep the raw `entry.get(...)` value and can be
`None`; `isbn`/`issn` default to `"null"` only when the key is absent;
`publication year` is `entry.get("prism:coverDate", "").split("-")[0]`,
i.e. the part of the cover date before the first dash (`""` when the key is
absent, since `"".split("-")[0] == ""`). -/
structure ScopusArticleData where
  title : Option String
  abstract : Option String
  authors : String
  doi : Option String
  isbn : Option String
  issn : Option String
  pubYear : String
deriving DecidableEq, Repr

namespace Scopus

/-- Build of one `article_data` dict (`api_3_scopus.py` lines 72-80). -/
def article_data (e : ScopusEntry) : ScopusArticleData :=
  { title := e.dcTitle,
    abstract := e.dcDescription,
    authors := String.intercalate ", " (e.authors.map (fun x => x.getD "null")),
    doi := e.prismDoi,
    isbn := match e.prismIsbn with
            | none => some "null"
            | some v => v,
    issn := match e.prismIssn with
            | none => some "null"
            | some v => v,
    pubYear := String.mk
      ((e.prismCoverDate.getD "").data.takeWhile fun c => c ≠ '-') }

/-- `if any(article_data.values())` (`api_3_scopus.py` line 81): the record
is kept only when at least one of its seven values is Python-truthy. -/
def keep (a : ScopusArticleData) : Bool :=
  pyTruthyOpt a.title || pyTruthyOpt a.abstract || pyTruthyStr a.authors ||
  pyTruthyOpt a.doi || pyTruthyOpt a.isbn || pyTruthyOpt a.issn ||
  pyTruthyStr a.pubYear

/-- `ScopusAPI.extract_titles_and_abstracts` (`api_3_scopus.py` lines
68-83): build `article_data` for each entry and append it only when `keep`
holds. -/
def extract_titles_and_abstracts (entries : List ScopusEntry) :
    List ScopusArticleData :=
  (entries.map article_data).filter keep

end Scopus

/-! ## PubMed XML parser -/

/-- An `Author` element of an `AuthorList`: the texts of its `LastName` and
`ForeName` child elements, `none` when the child is missing. -/
structure PMAuthor where
  lastName : Option String
  foreName : Option String
deriving DecidableEq, Repr

/-- An element of `PubmedData/ArticleIdList`: its `IdType` attribute and its
text (XML text may be absent). -/
structure PMArticleId where
  idType : String
  text : Option String
deriving DecidableEq, Repr

/-- The parts of an `Article` element `PubMedAPI.extract_pubmed_data` reads;
the outer `Option` is element presence, the inner `Option String` the
element's text. -/
structure PMArticle where
  abstractText : Option (Option String)
  journalIssn : Option (Option String)
  pubDateYear : Option (Option String)
  authorList : Option (List PMAuthor)
deriving DecidableEq, Repr

/-- A `MedlineCitation` element: the `Article/ArticleTitle` element (outer
`Option` = element presence, inner = its text) and the `Article` element. -/
structure PMMedlineCitation where
  articleTitle : Option (Option String)
  article : Option PMArticle
deriving DecidableEq, Repr

/-- One `PubmedArticle` element of an efetch response. -/
structure PubmedArticleXML where
  medlineCitation : Option PMMedlineCitation
  articleIdList : Option (List PMArticleId)
deriving DecidableEq, Repr

namespace PubMed

/-- The `article_data` dict built for one `PubmedArticle`
(`api_4_pubmed.py` lines 66-107), as the ordered list of (key, value) pairs
inserted: `continue` when `MedlineCitation` is missing (modelled as `none`);
`title` is always inserted (defaulting to `"null"` only when the
`ArticleTitle` ELEMENT is missing — a present element with no text inserts
`None`); `abstract`, `doi`, `isbn`, `issn`, `publication year` and `authors`
are inserted only when the corresponding element is found. -/
def article_data (pa : PubmedArticleXML) :
    Option (List (String × Option String)) :=
  match pa.medlineCitation with
  | none => none
  | some mc =>
    let titleE : List (String × Option String) :=
      [("title", match mc.articleTitle with
                 | some txt => txt
                 | none => some "null")]
    let abstractE : List (String × Option String) :=
      match mc.article with
      | some art =>
          match art.abstractText with
          | some txt => [("abstract", txt)]
          | none => []
      | none => []
    let idE : List (String × Option String) :=
      match pa.articleIdList with
      | some ids => ids.flatMap fun aid =>
          if aid.idType == "doi" then [("doi", aid.text)]
          else if aid.idType == "isbn" then [("isbn", aid.text)]
          else []
      | none => []
    let issnE : List (String × Option String) :=
      match mc.article with
      | some art =>
          match art.journalIssn with
          | some txt => [("issn", txt)]
          | none => []
      | none => []
    let yearE : List (String × Option String) :=
      match mc.article with
      | some art =>
          match art.pubDateYear with
          | some txt => [("publication year", txt)]
          | none => []
      | none => []
    let authorsE : List (String × Option String) :=
      match mc.article with
      | some art =>
          match art.authorList with
          | some auths =>
              [("authors", some (String.intercalate ", " (auths.map fun a =>
                 match a.lastName, a.foreName with
                 | some ln, some fn => ln ++ " " ++ fn
                 | _, _ => "null")))]
          | none => []
      | none => []
    some (titleE ++ abstractE ++ idE ++ issnE ++ yearE ++ authorsE)

/-- `PubMedAPI.extract_pubmed_data` (`api_4_pubmed.py` lines 61-112): one
dict per `PubmedArticle`, skipped when `MedlineCitation` is missing, and
appended only `if any(article_data.values())` (lines 109-110) — i.e. only
when at least one inserted value is Python-truthy. -/
def extract_pubmed_data (arts : List PubmedArticleXML) :
    List (List (String × Option String)) :=
  arts.filterMap fun pa =>
    match article_data pa with
    | none => none
    | some d => if d.any (fun kv => pyTruthyOpt kv.2) then some d else none

end PubMed

/-! ## Response-shape handling in the pagination loops -/

/-- A Springer page as the while loop of `SpringerAPI.search` reads it:
`data["result"]` (a list of header dicts, modelled by their parsed `total`
values — absent key is `none`), `data.get("records", [])` and
`data.get("nextPage", None)`.  The whole page is `none` when the response
body is falsy (`if not data`). -/
structure SpringerPage where
  result : Option (List Nat)
  records : List SpringerRecordIn
  nextPage : Option String
deriving DecidableEq, Repr

namespace Springer

/-- First-page handling in the while loop of `SpringerAPI.search`
(`api_2_springer.py` lines 101-113), entered with `total_records == 0`:
a falsy body breaks the loop with zero records (graceful); otherwise
`int(data["result"][0]["total"])` runs UNGUARDED — a truthy page without a
`"result"` key raises `KeyError`, an empty `"result"` list raises
`IndexError` — and on success the page's records are extracted and the next
URL is `data.get("nextPage", None)`. -/
def handle_first_page (data : Option SpringerPage) :
    Except String (List SpringerRecordOut × Option String) :=
  match data with
  | none => Except.ok ([], none)
  | some p =>
      match p.result with
      | none => Except.error "KeyError: result"
      | some [] => Except.error "IndexError: result[0]"
      | some (_ :: _) => Except.ok (extract_data p.records, p.nextPage)

end Springer

/-- A typed link of a Scopus response: `link['@ref']` and `link['@href']`. -/
structure ScopusLink where
  ref : String
  href : String
deriving DecidableEq, Repr

/-- The `search-results` object of a Scopus page: the optional
`opensearch:totalResults`, the optional `link` list and the entry list
(read with `.get`, default `[]`). -/
structure ScopusSearchResults where
  totalResults : Option Nat
  link : Option (List ScopusLink)
  entry : List ScopusEntry
deriving DecidableEq, Repr

/-- A Scopus page: the body is `none` when falsy (which includes the `None`
that `get_data_from_url` returns on a non-200 status); `searchResults` is
`none` when the `search-results` key is absent. -/
structure ScopusPage where
  searchResults : Option ScopusSearchResults
deriving DecidableEq, Repr

namespace Scopus

/-- Page handling in the while loop of `ScopusAPI.search`
(`api_3_scopus.py` lines 108-119): a falsy body breaks with zero records
(graceful); otherwise the records are extracted (with safe `.get` chains)
but the next-link extraction indexes `data['search-results']['link']`
UNGUARDED, so a truthy page missing `search-results` or `link` raises
`KeyError`; on success the next URL is the `@href` of the first link whose
`@ref` is `"next"`, if any. -/
def handle_page (data : Option ScopusPage) :
    Except String (List ScopusArticleData × Option String) :=
  match data with
  | none => Except.ok ([], none)
  | some p =>
      match p.searchResults with
      | none => Except.error "KeyError: search-results"
      | some sr =>
          match sr.link with
          | none => Except.error "KeyError: link"
          | some links =>
              Except.ok (extract_titles_and_abstracts sr.entry,
                (links.find? fun l => l.ref == "next").map fun l => l.href)

end Scopus

/-! ## Helper lemmas -/

theorem run_cells_spec {α : Type} :
    ∀ (cells : List (String × List α)) (st : Accounting α),
      (run_cells st cells).total_saved_records
          = st.total_saved_records + cellSum cells ∧
      (run_cells st cells).merged_cells = st.merged_cells ++ cells := by
  intro cells
  induction cells with
  | nil => intro st; simp [run_cells, cellSum]
  | cons c rest ih =>
      intro st
      have h := ih (complete_cell st c.1 c.2)
      simp only [run_cells, List.foldl_cons] at h ⊢
      simp only [complete_cell, cellSum, List.map_cons, List.sum_cons] at h ⊢
      refine ⟨by omega, ?_⟩
      rw [h.2]
      simp

theorem ieee_fold_ckpt_spec :
    ∀ (cells : List (List Nat)) (fs : CkptFile),
      (cells.foldl IEEE.cell_ckpt_step fs)
        = ⟨fs.present || !cells.isEmpty, fs.writes + cells.length, fs.removes⟩ := by
  intro cells
  induction cells with
  | nil => intro fs; simp
  | cons c rest ih =>
      intro fs
      simp only [List.foldl_cons, IEEE.cell_ckpt_step, CkptFile.write]
      rw [ih]
      simp [Nat.add_assoc, Nat.add_comm 1 rest.length]

theorem pubmed_fold_ckpt_spec :
    ∀ (cells : List (List Nat)) (fs : CkptFile),
      (cells.foldl PubMed.cell_ckpt_step fs)
        = ⟨fs.present || cells.any (fun p => !p.isEmpty),
           fs.writes + (cells.filter (fun p => !p.isEmpty)).length,
           fs.removes⟩ := by
  intro cells
  induction cells with
  | nil => intro fs; simp
  | cons c rest ih =>
      intro fs
      simp only [List.foldl_cons, PubMed.cell_ckpt_step]
      by_cases hc : c.isEmpty
      · rw [if_pos hc, ih]
        simp [hc]
      · rw [if_neg hc, ih]
        simp [CkptFile.write, hc, Nat.add_assoc, Nat.add_comm 1]


theorem scopus_run_spec (budget : Nat) :
    ∀ (calls : List (String × Nat)) (st : ConnState),
      st.request_counter + calls.length ≤ budget →
      (Scopus.run budget st calls).request_log.length
          = st.request_log.length + calls.length ∧
      (Scopus.run budget st calls).request_counter
          = st.request_counter + (calls.filter (fun c => c.2 == 200)).length ∧
      (Scopus.run budget st calls).pauses = st.pauses := by
  intro calls
  induction calls with
  | nil => intro st _; simp [Scopus.run]
  | cons c rest ih =>
      intro st hb
      obtain ⟨url, status⟩ := c
      simp only [List.length_cons] at hb
      have hnp : ¬ st.request_counter ≥ budget := by omega
      simp only [Scopus.run]
      generalize hst' : (Scopus.get_data_from_url budget st url status).2 = st'
      have hlog : st'.request_log.length = st.request_log.length + 1 := by
        rw [← hst']
        by_cases hs : status = 200 <;>
          simp [Scopus.get_data_from_url, hnp, hs]
      have hctr : st'.request_counter
          = st.request_counter + (if status == 200 then 1 else 0) := by
        rw [← hst']
        by_cases hs : status = 200 <;>
          simp [Scopus.get_data_from_url, hnp, hs]
      have hpa : st'.pauses = st.pauses := by
        rw [← hst']
        by_cases hs : status = 200 <;>
          simp [Scopus.get_data_from_url, hnp, hs]
      have h := ih st' (by rw [hctr]; split <;> omega)
      refine ⟨?_, ?_, by rw [h.2.2, hpa]⟩
      · rw [h.1, hlog]; simp only [List.length_cons]; omega
      · rw [h.2.1, hctr, List.filter_cons]
        by_cases hs : status = 200
        · simp [hs]
          omega
        · simp [hs]

/-! ## Claim theorems -/

/-- C1: the claim states that both inner indices (`keyword_index`,
`name_index`) are 0 whenever the outer loop moves to the next primary term,
so that after resuming from a checkpoint with non-zero `keyword_index` every
LATER primary term iterates its keywords from 0 and no cell is skipped.
This theorem evaluates the code at the failing input: two single-name
primary terms, two keywords, resumed with `keyword_index = 1`.  In the
Springer and Scopus connectors the single-name branch never resets
`keyword_index`, so the second primary term also starts at keyword 1 and its
cell (1, 0, 0) is silently skipped; the IEEE and PubMed connectors reset the
index and do visit (1, 0, 0). -/
theorem C1_inner_index_reset_evaluation :
    Springer.search_visited [1, 1] 2 0 1 0 = [(0, 0, 1), (1, 0, 1)] ∧
    (1, 0, 0) ∉ Springer.search_visited [1, 1] 2 0 1 0 ∧
    Scopus.search_visited [1, 1] 2 0 1 0 = [(0, 0, 1), (1, 0, 1)] ∧
    IEEE.search_visited [1, 1] 2 0 1 0 = [(0, 0, 1), (1, 0, 0), (1, 0, 1)] ∧
    PubMed.search_visited [1, 1] 2 0 1 0 = [(0, 0, 1), (1, 0, 0), (1, 0, 1)] := by
  decide

/-- C2: at every point in a run, `total_saved_records` equals the sum of the
lengths of every ResultCell merged into `all_results` during the run (for a
run started from the empty state), it is monotonically non-decreasing, and
the merge of a cell and the addition of its length happen in the same
`complete_cell` step. -/
theorem C2_total_saved_records_accounting {α : Type} :
    (∀ cells : List (String × List α),
       (run_cells ⟨0, []⟩ cells).total_saved_records
         = cellSum (run_cells (Accounting.mk (α := α) 0 []) cells).merged_cells) ∧
    (∀ (st : Accounting α) (cells : List (String × List α)),
       st.total_saved_records ≤ (run_cells st cells).total_saved_records) ∧
    (∀ (st : Accounting α) (kw : String) (cell : List α),
       (complete_cell st kw cell).total_saved_records
           = st.total_saved_records + cell.length ∧
       (complete_cell st kw cell).merged_cells
           = st.merged_cells ++ [(kw, cell)]) := by
  refine ⟨?_, ?_, ?_⟩
  · intro cells
    have h := run_cells_spec cells (Accounting.mk (α := α) 0 [])
    rw [h.1, h.2]
    simp
  · intro st cells
    have h := run_cells_spec cells st
    rw [h.1]
    omega
  · intro st kw cell
    exact ⟨rfl, rfl⟩

/-- C5: the three network-metered backends (Springer, Scopus, PubMed) check
`request_counter >= max_requests_per_day` (500) before each network step and,
when hit, pause for the 24-hour cooldown and reset the counter to 0 before
issuing the request; with a budget of 2, exactly one pause fires after the
2nd request and the counter is 0 before the 3rd (its log line reads `#1` and
the counter after it is 1); the offset-style IEEE backend performs no budget
check at all. -/
theorem C5_daily_budget_pause :
    (∀ st url,
       (Springer.get_data_from_url Springer.max_requests_per_day st url).pauses
         = (if st.request_counter ≥ 500 then st.pauses + 1 else st.pauses) ∧
       (Springer.get_data_from_url Springer.max_requests_per_day st url).request_counter
         = (if st.request_counter ≥ 500 then 1 else st.request_counter + 1)) ∧
    (∀ st url,
       (PubMed.get_data_from_url PubMed.max_requests_per_day st url).pauses
         = (if st.request_counter ≥ 500 then st.pauses + 1 else st.pauses)) ∧
    (∀ st url status,
       (Scopus.get_data_from_url Scopus.max_requests_per_day st url status).2.pauses
         = (if st.request_counter ≥ 500 then st.pauses + 1 else st.pauses)) ∧
    ((Springer.get_data_from_url 2 ConnState.init "u1").pauses = 0 ∧
     (Springer.get_data_from_url 2
        (Springer.get_data_from_url 2 ConnState.init "u1") "u2").pauses = 0 ∧
     (Springer.get_data_from_url 2 (Springer.get_data_from_url 2
        (Springer.get_data_from_url 2 ConnState.init "u1") "u2") "u3").pauses = 1 ∧
     (Springer.get_data_from_url 2 (Springer.get_data_from_url 2
        (Springer.get_data_from_url 2 ConnState.init "u1") "u2") "u3").request_counter = 1 ∧
     (Springer.get_data_from_url 2 (Springer.get_data_from_url 2
        (Springer.get_data_from_url 2 ConnState.init "u1") "u2") "u3").request_log.getLast?
       = some "Springer API request #1: u3") ∧
    (∀ st url, (IEEE.call_api st url).pauses = st.pauses) := by
  refine ⟨?_, ?_, ?_, by decide, ?_⟩
  · intro st url
    by_cases h : st.request_counter ≥ 500 <;>
      simp [Springer.get_data_from_url, Springer.max_requests_per_day, h]
  · intro st url
    by_cases h : st.request_counter ≥ 500 <;>
      simp [PubMed.get_data_from_url, PubMed.max_requests_per_day, h]
  · intro st url status
    by_cases h : st.request_counter ≥ 500 <;>
      by_cases hs : status = 200 <;>
        simp [Scopus.get_data_from_url, Scopus.max_requests_per_day, h, hs]
  · intro st url
    simp [IEEE.call_api]

/-- C6: the IEEE page loop uses a 1-based start offset incremented by the
page size 25, terminates exactly when `start_record + 24 >= total_records`
(the unfolding equation), and issues exactly 2 page requests for a cell with
`total_records = 30`. -/
theorem C6_ieee_offset_pagination :
    (∀ total_records start_record : Nat,
       IEEE.page_loop total_records start_record
         = if start_record + 24 ≥ total_records then 1
           else 1 + IEEE.page_loop total_records (start_record + 25)) ∧
    IEEE.requests_for_cell 30 = 2 ∧
    (∀ total_records, IEEE.requests_for_cell total_records
        = IEEE.page_loop total_records 1) := by
  refine ⟨fun t s => ?_, ?_, fun t => rfl⟩
  · rw [IEEE.page_loop]
  · simp [IEEE.requests_for_cell, IEEE.page_loop]

/-- C10: loading a checkpoint saved by `save_checkpoint` returns exactly the
saved state — indices, `all_results`, `total_saved_records`,
`request_counter` and `request_log` all round-trip — provided the state's
counter and log fields match the instance's current values at save time
(which `save_checkpoint` writes over them). -/
theorem C10_checkpoint_round_trip (C : CheckpointData) (ctr : Nat)
    (log : String) (h1 : C.request_counter = ctr) (h2 : C.request_log = log) :
    load_checkpoint (save_checkpoint ctr log C) = some C := by
  subst h1
  subst h2
  cases C
  rfl

/-- Witness for C10 at a concrete mid-run checkpoint. -/
theorem C10_checkpoint_round_trip_witness :
    load_checkpoint (save_checkpoint 7 "IEEE API request #7: u\n"
        ⟨[("bias", BiasResult.flat 5 [("kw", [])])], 5, 1, 2, 0, 7,
          "IEEE API request #7: u\n"⟩)
      = some ⟨[("bias", BiasResult.flat 5 [("kw", [])])], 5, 1, 2, 0, 7,
          "IEEE API request #7: u\n"⟩ :=
  C10_checkpoint_round_trip
    ⟨[("bias", BiasResult.flat 5 [("kw", [])])], 5, 1, 2, 0, 7,
      "IEEE API request #7: u\n"⟩ 7 "IEEE API request #7: u\n" rfl rfl

/-- C3 counterexample: a single Scopus connector call whose HTTP status is
404 appends one line to the request log but does NOT increment the request
counter (the `return None` on non-200 precedes the increment), so after this
call the counter (0) differs from the number of log lines appended (1). -/
theorem C3_counterexample :
    (Scopus.get_data_from_url Scopus.max_requests_per_day ConnState.init
        "u" 404).2.request_log.length = 1 ∧
    (Scopus.get_data_from_url Scopus.max_requests_per_day ConnState.init
        "u" 404).2.request_counter = 0 ∧
    (0 : Nat) ≠ 1 := by
  decide

/-- C3 (amended): every connector call appends exactly one request-log line;
IEEE and Springer calls increment the shared counter exactly once per call,
while a Scopus call increments it exactly once when the HTTP status is 200
and not at all otherwise; hence in a fresh within-budget Scopus run the
counter equals the number of 200-status calls (and equals the number of log
lines only when every response is 200). -/
theorem C3_request_log_counter_amended :
    (∀ st url, (IEEE.call_api st url).request_log.length
         = st.request_log.length + 1 ∧
       (IEEE.call_api st url).request_counter = st.request_counter + 1) ∧
    (∀ budget st url, st.request_counter < budget →
       (Springer.get_data_from_url budget st url).request_log.length
           = st.request_log.length + 1 ∧
       (Springer.get_data_from_url budget st url).request_counter
           = st.request_counter + 1) ∧
    (∀ budget st url status, st.request_counter < budget →
       (Scopus.get_data_from_url budget st url status).2.request_log.length
           = st.request_log.length + 1 ∧
       (Scopus.get_data_from_url budget st url status).2.request_counter
           = st.request_counter + (if status == 200 then 1 else 0)) ∧
    (∀ calls : List (String × Nat),
       calls.length ≤ Scopus.max_requests_per_day →
       (Scopus.run Scopus.max_requests_per_day ConnState.init
           calls).request_log.length = calls.length ∧
       (Scopus.run Scopus.max_requests_per_day ConnState.init
           calls).request_counter
           = (calls.filter (fun c => c.2 == 200)).length) := by
  refine ⟨?_, ?_, ?_, ?_⟩
  · intro st url
    simp [IEEE.call_api]
  · intro budget st url h
    have hnp : ¬ st.request_counter ≥ budget := by omega
    simp [Springer.get_data_from_url, hnp]
  · intro budget st url status h
    have hnp : ¬ st.request_counter ≥ budget := by omega
    by_cases hs : status = 200 <;>
      simp [Scopus.get_data_from_url, hnp, hs]
  · intro calls h
    have hr := scopus_run_spec Scopus.max_requests_per_day calls
      ConnState.init (by simpa [ConnState.init] using h)
    constructor
    · simpa [ConnState.init] using hr.1
    · simpa [ConnState.init] using hr.2.1

/-- Witness for the amended C3 at one concrete 200-status Scopus call. -/
theorem C3_request_log_counter_amended_witness :
    ConnState.init.request_counter < Scopus.max_requests_per_day ∧
    (Scopus.get_data_from_url Scopus.max_requests_per_day ConnState.init
        "u" 200).2.request_log.length
      = ConnState.init.request_log.length + 1 := by
  refine ⟨by decide, ?_⟩
  exact (C3_request_log_counter_amended.2.2.1 Scopus.max_requests_per_day
    ConnState.init "u" 200 (by decide)).1

/-- C4 counterexample: a PubMed run over two completed (bias name, keyword)
cells, the first of which yields zero ids, writes the checkpoint only once —
the `continue` on empty `pmids` skips `save_checkpoint` — while the claim
requires one write per completed cell (the IEEE run over the same two cells
does write twice). -/
theorem C4_counterexample :
    (PubMed.search_ckpt ⟨false, 0, 0⟩ [[], [5]]).writes = 1 ∧
    ([[], [5]] : List (List Nat)).length = 2 ∧
    (IEEE.search_ckpt ⟨false, 0, 0⟩ [[], [5]]).writes = 2 := by
  decide

/-- C4 (amended): the IEEE connector writes the checkpoint exactly once per
completed cell, including zero-record cells; the PubMed connector writes it
exactly once per completed cell whose id-search returned at least one id and
skips zero-id cells entirely; after `search` returns, the checkpoint file is
absent, having been removed at most once — and exactly once for a fresh IEEE
run with at least one cell — only after the outer loop finished. -/
theorem C4_checkpoint_lifecycle_amended :
    (∀ (fs : CkptFile) (cells : List (List Nat)),
        (IEEE.search_ckpt fs cells).writes = fs.writes + cells.length) ∧
    (∀ (fs : CkptFile) (cells : List (List Nat)),
        (PubMed.search_ckpt fs cells).writes
          = fs.writes + (cells.filter (fun p => !p.isEmpty)).length) ∧
    (∀ (fs : CkptFile) (cells : List (List Nat)),
        (IEEE.search_ckpt fs cells).present = false ∧
        (PubMed.search_ckpt fs cells).present = false) ∧
    (∀ (fs : CkptFile) (cells : List (List Nat)),
        (IEEE.search_ckpt fs cells).removes ≤ fs.removes + 1 ∧
        (PubMed.search_ckpt fs cells).removes ≤ fs.removes + 1) ∧
    (∀ cells : List (List Nat), cells ≠ [] →
        (IEEE.search_ckpt ⟨false, 0, 0⟩ cells).removes = 1) := by
  refine ⟨?_, ?_, ?_, ?_, ?_⟩
  · intro fs cells
    rw [IEEE.search_ckpt, ieee_fold_ckpt_spec]
    rw [CkptFile.removeIfExists]
    split <;> rfl
  · intro fs cells
    rw [PubMed.search_ckpt, pubmed_fold_ckpt_spec]
    rw [CkptFile.removeIfExists]
    split <;> rfl
  · intro fs cells
    constructor
    · rw [IEEE.search_ckpt, ieee_fold_ckpt_spec, CkptFile.removeIfExists]
      split
      · rfl
      · rename_i h
        simpa using h
    · rw [PubMed.search_ckpt, pubmed_fold_ckpt_spec, CkptFile.removeIfExists]
      split
      · rfl
      · rename_i h
        simpa using h
  · intro fs cells
    constructor
    · rw [IEEE.search_ckpt, ieee_fold_ckpt_spec, CkptFile.removeIfExists]
      split <;> simp
    · rw [PubMed.search_ckpt, pubmed_fold_ckpt_spec, CkptFile.removeIfExists]
      split <;> simp
  · intro cells h
    rw [IEEE.search_ckpt, ieee_fold_ckpt_spec, CkptFile.removeIfExists]
    have : (cells.isEmpty : Bool) = false := by
      cases cells with
      | nil => exact absurd rfl h
      | cons c rest => rfl
    simp [this]

/-- Witness for the amended C4 at a fresh one-cell IEEE run. -/
theorem C4_checkpoint_lifecycle_amended_witness :
    ([[5]] : List (List Nat)) ≠ [] ∧
    (IEEE.search_ckpt ⟨false, 0, 0⟩ [[5]]).removes = 1 :=
  ⟨by decide, C4_checkpoint_lifecycle_amended.2.2.2.2 [[5]] (by decide)⟩

/-- C7 counterexample: a PubMed article whose only inserted dict value is
falsy (a `MedlineCitation` with an empty `ArticleTitle` element and nothing
else) is DISCARDED by `extract_pubmed_data` — the `if any(...)` filter at
`api_4_pubmed.py` lines 109-110 — refuting the claim that only the Scopus
parser drops all-falsy records while the other three backends keep them. -/
theorem C7_counterexample :
    PubMed.article_data ⟨some ⟨some none, none⟩, none⟩
      = some [("title", none)] ∧
    PubMed.extract_pubmed_data [⟨some ⟨some none, none⟩, none⟩] = [] := by
  decide

/-- C7 (amended): an all-falsy normalized record is discarded by BOTH the
Scopus parser and the PubMed parser, while the IEEE and Springer parsers
keep one output record per input record unconditionally. -/
theorem C7_empty_record_filter_amended :
    (∀ rs : List SpringerRecordIn,
        (Springer.extract_data rs).length = rs.length) ∧
    (∀ arts : List IEEE.Article,
        (IEEE.parse_articles arts).length = arts.length) ∧
    Scopus.extract_titles_and_abstracts
        [⟨none, none, [], none, some none, some none, none⟩] = [] ∧
    PubMed.extract_pubmed_data [⟨some ⟨some none, none⟩, none⟩] = [] := by
  refine ⟨?_, ?_, by decide, by decide⟩
  · intro rs
    simp [Springer.extract_data]
  · intro arts
    simp [IEEE.parse_articles]

/-- C8 counterexample: a Scopus entry with no `prism:doi` key produces (and
keeps) a record whose `doi` value is None — not the sentinel `"No DOI"` —
refuting the claim that every connector defaults a missing doi. -/
theorem C8_counterexample :
    (Scopus.article_data ⟨some "T", none, [], none, none, none, none⟩).doi
      = none ∧
    Scopus.extract_titles_and_abstracts
        [⟨some "T", none, [], none, none, none, none⟩]
      = [Scopus.article_data ⟨some "T", none, [], none, none, none, none⟩] := by
  decide

/-- C8 (amended): the IEEE and Springer parsers produce every normalized
field with the documented defaults, in particular `doi = "No DOI"` when the
response omits it; the Scopus parser keeps the raw `entry.get("prism:doi")`
value for `doi` (None when the key is missing); the PubMed parser omits the
`doi` key entirely when no doi-typed article id is present. -/
theorem C8_field_defaults_amended :
    (∀ r : SpringerRecordIn, r.doi = none →
        (Springer.extract_one r).doi = "No DOI") ∧
    (∀ a : IEEE.Article, a.doi = none →
        (IEEE.parse_article a).doi = "No DOI") ∧
    (∀ e : ScopusEntry, (Scopus.article_data e).doi = e.prismDoi) ∧
    PubMed.article_data ⟨some ⟨some (some "T"), none⟩, none⟩
      = some [("title", some "T")] := by
  refine ⟨?_, ?_, fun e => rfl, by decide⟩
  · intro r h
    simp [Springer.extract_one, h]
  · intro a h
    simp [IEEE.parse_article, h]

/-- Witness for the amended C8 at a Springer record missing its doi. -/
theorem C8_field_defaults_amended_witness :
    (⟨none, none, [], none, none, none, none⟩ : SpringerRecordIn).doi
      = none ∧
    (Springer.extract_one ⟨none, none, [], none, none, none, none⟩).doi
      = "No DOI" :=
  ⟨rfl, C8_field_defaults_amended.1
    ⟨none, none, [], none, none, none, none⟩ rfl⟩

/-- C9 counterexample: a truthy Springer first page that lacks the `result`
key makes the connector raise a `KeyError` to the orchestrator instead of
treating the page as zero records, and a truthy Scopus page lacking
`search-results` does the same — refuting the claim that connectors never
raise for malformed response shapes. -/
theorem C9_counterexample :
    Springer.handle_first_page
        (some ⟨none, [⟨none, none, [], none, none, none, none⟩], none⟩)
      = Except.error "KeyError: result" ∧
    Scopus.handle_page (some ⟨none⟩)
      = Except.error "KeyError: search-results" :=
  ⟨rfl, rfl⟩

/-- C9 (amended): a falsy response body ends the cell's pagination
gracefully with zero records and no next page, but some truthy malformed
shapes DO raise and propagate: every truthy Springer first page without a
`result` key and every truthy Scopus page without a `search-results` key
produce an exception that halts the worker. -/
theorem C9_shape_handling_amended :
    Springer.handle_first_page none = Except.ok ([], none) ∧
    Scopus.handle_page none = Except.ok ([], none) ∧
    (∀ p : SpringerPage, p.result = none →
        Springer.handle_first_page (some p)
          = Except.error "KeyError: result") ∧
    (∀ p : ScopusPage, p.searchResults = none →
        Scopus.handle_page (some p)
          = Except.error "KeyError: search-results") := by
  refine ⟨rfl, rfl, ?_, ?_⟩
  · rintro ⟨res, recs, np⟩ h
    subst h
    rfl
  · rintro ⟨sr⟩ h
    subst h
    rfl

/-- Witness for the amended C9 at a concrete malformed Springer page. -/
theorem C9_shape_handling_amended_witness :
    (⟨none, [], none⟩ : SpringerPage).result = none ∧
    Springer.handle_first_page (some ⟨none, [], none⟩)
      = Except.error "KeyError: result" :=
  ⟨rfl, C9_shape_handling_amended.2.2.1 ⟨none, [], none⟩ rfl⟩
